import Mathlib

/-!
Verification of the chat client core of `src/components/chat.rs` (YewChat).

The embedding models the data and control of `Chat`:
  - the protocol envelope `WebSocketMessage` and the nested `MessageData`,
  - the observable component state (`users`, `messages`, `dark_mode`),
  - `Chat::get_user_color`,
  - `Chat::create` (registration side effect and initial state),
  - `Chat::update` for all four `Msg` variants.

JSON (de)serialization is performed in the source by the external library
serde_json.  Inbound decoding is therefore a parameter of the model (`Env`):
a decoder result `none` stands for a serde decode failure, and the `Option`
result of `update` is `none` exactly when the Rust code panics (an `unwrap`
on a failed decode).  Outbound serialization of the envelope struct is
modelled concretely (`serializeWsMessage`), following serde_json's behaviour
on this struct: fields in declaration order, `camelCase` renaming, `None`
options emitted as `null`.
-/

/-- The three protocol message kinds of `enum MsgTypes` (serde `lowercase`). -/
inductive MsgTypes where
  | Users
  | Register
  | Message
deriving DecidableEq, Repr

/-- `struct WebSocketMessage`: the protocol envelope.  Serde decodes a missing
or `null` JSON field to `None`, so a single `Option` models both. -/
structure WebSocketMessage where
  message_type : MsgTypes
  data_array : Option (List String)
  data : Option String
deriving DecidableEq, Repr

/-- `struct MessageData`: the nested chat message `{ from, message }`
(`from` is a Lean keyword, hence `from_`). -/
structure MessageData where
  from_ : String
  message : String
deriving DecidableEq, Repr

/-- `struct UserProfile`: one roster entry. -/
structure UserProfile where
  name : String
  color : String
deriving DecidableEq, Repr

/-- The observable state of `struct Chat` (the `NodeRef`, websocket handle and
event-bus bridge carry no protocol state and are modelled in `Env` /
`StepResult`). -/
structure Chat where
  users : List UserProfile
  messages : List MessageData
  dark_mode : Bool
deriving DecidableEq, Repr

/-- The fixed 16-colour palette of `Chat::get_user_color`. -/
def colors : List String :=
  ["#EF4444", "#F97316", "#F59E0B", "#EAB308",
   "#84CC16", "#22C55E", "#10B981", "#14B8A6",
   "#06B6D4", "#0EA5E9", "#3B82F6", "#6366F1",
   "#8B5CF6", "#A855F7", "#D946EF", "#EC4899"]

/-- `Chat::get_user_color`: sum of the characters' code points
(`c as usize` in Rust is the Unicode scalar value, `Char.toNat` here),
reduced modulo `colors.len()`, indexed into the palette. -/
def get_user_color (name : String) : String :=
  let index := (name.data.map (fun c => c.toNat)).sum % colors.length
  colors.getD index ""

/-- Unicode white space, as Rust's `char::is_whitespace` (the `White_Space`
property), used by `str::trim` in `Msg::SubmitMessage`. -/
def rustIsWhitespace (c : Char) : Bool :=
  List.contains
    [0x09, 0x0A, 0x0B, 0x0C, 0x0D, 0x20, 0x85, 0xA0, 0x1680,
     0x2000, 0x2001, 0x2002, 0x2003, 0x2004, 0x2005, 0x2006, 0x2007,
     0x2008, 0x2009, 0x200A, 0x2028, 0x2029, 0x202F, 0x205F, 0x3000]
    c.toNat

/-- Rust `str::trim`: removes leading and trailing white space. -/
def rustTrim (s : String) : String :=
  ⟨((s.data.dropWhile rustIsWhitespace).reverse.dropWhile rustIsWhitespace).reverse⟩

/-- serde `lowercase` renaming of `MsgTypes` variant names. -/
def msgTypeName : MsgTypes → String
  | MsgTypes.Users => "users"
  | MsgTypes.Register => "register"
  | MsgTypes.Message => "message"

/-- The hex digits used by serde_json's `\uXXXX` escapes. -/
def hexDigits : List Char :=
  String.data "0123456789abcdef"

/-- serde_json string escaping: `"` and `\` are backslash-escaped, control
characters below 0x20 use the short escapes or `\u00XX`. -/
def escapeJsonChar (c : Char) : String :=
  if c = '"' then "\\\""
  else if c = '\\' then "\\\\"
  else if c = '\x08' then "\\b"
  else if c = '\x09' then "\\t"
  else if c = '\x0A' then "\\n"
  else if c = '\x0C' then "\\f"
  else if c = '\x0D' then "\\r"
  else if c.toNat < 0x20 then
    "\\u00" ++ ⟨[hexDigits.getD (c.toNat / 16) '0', hexDigits.getD (c.toNat % 16) '0']⟩
  else ⟨[c]⟩

/-- A JSON string literal for `s`, as serde_json emits it. -/
def jsonString (s : String) : String :=
  "\"" ++ String.join (s.data.map escapeJsonChar) ++ "\""

/-- serde_json serialization of `WebSocketMessage`: fields in declaration
order (`message_type`, `data_array`, `data`), `camelCase` field renaming,
`None` options emitted as `null` (the struct has no `skip_serializing_if`). -/
def serializeWsMessage (m : WebSocketMessage) : String :=
  "\x7b\"messageType\":" ++ jsonString (msgTypeName m.message_type) ++
    ",\"dataArray\":" ++
      (match m.data_array with
        | none => "null"
        | some xs => "[" ++ String.intercalate "," (xs.map jsonString) ++ "]") ++
    ",\"data\":" ++
      (match m.data with
        | none => "null"
        | some s => jsonString s) ++
    "\x7d"

/-- The roster built from a `users` frame's name list: the `.iter().map(..)`
in the `MsgTypes::Users` arm, one `UserProfile` per name, in order. -/
def rosterOf (names : List String) : List UserProfile :=
  names.map (fun u => { name := u, color := get_user_color u })

/-- `enum Msg`: the component's update messages.  `HandleMsg` carries the raw
inbound frame string, as in the source. -/
inductive Msg where
  | HandleMsg (s : String)
  | SubmitMessage
  | ToggleDarkMode
  | ClearChat
deriving DecidableEq, Repr

/-- What `Chat::update` reads from its collaborators: the serde_json decoders
for the envelope and the nested chat message (external library; `none` is a
decode failure), and the current value of the chat input element
(`none` when the `NodeRef` cast fails). -/
structure Env where
  decodeEnvelope : String → Option WebSocketMessage
  decodeChat : String → Option MessageData
  inputValue : Option String

/-- The observable outcome of one `Chat::update` step: the new state, the
returned rerender flag, the frames handed to `wss.tx.try_send` (in order),
and the input element's value afterwards. -/
structure StepResult where
  state : Chat
  rerender : Bool
  sent : List WebSocketMessage
  inputAfter : Option String
deriving DecidableEq, Repr

/-- `Chat::update`.  The result is `none` exactly when the Rust code panics:
`serde_json::from_str(&s).unwrap()` on envelope-decode failure,
`msg.data.unwrap()` on a `message` frame without `data`, and the nested
`serde_json::from_str(..).unwrap()` on chat-message-decode failure. -/
def update (env : Env) (st : Chat) (msg : Msg) : Option StepResult :=
  match msg with
  | Msg.HandleMsg s =>
    match env.decodeEnvelope s with
    | none => none
    | some m =>
      match m.message_type with
      | MsgTypes.Users =>
        let users_from_message := m.data_array.getD []
        some { state := { st with users := rosterOf users_from_message },
               rerender := true, sent := [], inputAfter := env.inputValue }
      | MsgTypes.Message =>
        match m.data with
        | none => none
        | some d =>
          match env.decodeChat d with
          | none => none
          | some message_data =>
            some { state := { st with messages := st.messages ++ [message_data] },
                   rerender := true, sent := [], inputAfter := env.inputValue }
      | MsgTypes.Register =>
        some { state := st, rerender := false, sent := [], inputAfter := env.inputValue }
  | Msg.SubmitMessage =>
    match env.inputValue with
    | none => some { state := st, rerender := false, sent := [], inputAfter := none }
    | some v =>
      let value := rustTrim v
      if value.isEmpty then
        some { state := st, rerender := false, sent := [], inputAfter := some v }
      else
        some { state := st, rerender := false,
               sent := [{ message_type := MsgTypes.Message, data_array := none,
                          data := some value }],
               inputAfter := some "" }
  | Msg.ToggleDarkMode =>
    some { state := { st with dark_mode := !st.dark_mode },
           rerender := true, sent := [], inputAfter := env.inputValue }
  | Msg.ClearChat =>
    some { state := { st with messages := [] },
           rerender := true, sent := [], inputAfter := env.inputValue }

/-- The spec's initial state: empty roster, empty log, Light mode
(`dark_mode = false`). -/
def initState : Chat :=
  { users := [], messages := [], dark_mode := false }

/-- The `Register` envelope built in `Chat::create`. -/
def registerEnvelope (username : String) : WebSocketMessage :=
  { message_type := MsgTypes.Register, data_array := none, data := some username }

/-- The observable outcome of `Chat::create`: the constructed state and the
frames handed to `wss.tx.try_send`. -/
structure CreateResult where
  state : Chat
  sent : List WebSocketMessage
deriving DecidableEq, Repr

/-- `Chat::create`: sends one serialized `Register` envelope carrying the
username and constructs the state `{ users: vec![], messages: vec![],
dark_mode: false }`. -/
def create (username : String) : CreateResult :=
  { state := initState, sent := [registerEnvelope username] }

/-- The raw frame `Chat::create` passes to `try_send`:
`serde_json::to_string(&message).unwrap()`. -/
def create_sent_frame (username : String) : String :=
  serializeWsMessage (registerEnvelope username)

/-- C4: `get_user_color` is the spec's `colorFor`: it equals
`palette[(sum of code points) mod 16]`, its result is always one of the 16
palette entries, and the empty name yields the first entry.  Purity and
determinism hold by construction: it is a Lean function of `name` alone. -/
theorem get_user_color_spec (name : String) :
    get_user_color name = colors.getD ((name.data.map (fun c => c.toNat)).sum % 16) "" ∧
    get_user_color name ∈ colors ∧
    get_user_color "" = "#EF4444" := by
  refine ⟨rfl, ?_, rfl⟩
  have hlen : colors.length = 16 := rfl
  have hlt : (name.data.map (fun c => c.toNat)).sum % colors.length < colors.length := by
    exact Nat.mod_lt _ (by simp [hlen])
  rw [get_user_color]
  have := List.getD_eq_getElem colors "" hlt
  rw [this]
  exact List.getElem_mem hlt

/-- C1 (the code contradicts this claim): a frame that serde_json cannot
decode as a `WebSocketMessage` makes `Chat::update` panic via
`serde_json::from_str(&s).unwrap()` (modelled as result `none`), instead of
being discarded with state unchanged; likewise a `message` frame without a
`data` field (`msg.data.unwrap()`), and a `message` frame whose `data` is not
valid `MessageData` JSON (the nested `unwrap`).  The first conjunct is the
empty-string frame, which the input field's own `onkeypress` handler feeds to
`update` on every non-Enter keystroke. -/
theorem malformed_frame_panics :
    update ⟨fun _ => none, fun _ => none, none⟩ initState (Msg.HandleMsg "") = none ∧
    update ⟨fun _ => some ⟨MsgTypes.Message, none, none⟩, fun _ => none, none⟩
      initState (Msg.HandleMsg "frame") = none ∧
    update ⟨fun _ => some ⟨MsgTypes.Message, none, some "not json"⟩, fun _ => none, none⟩
      initState (Msg.HandleMsg "frame") = none :=
  ⟨rfl, rfl, rfl⟩

/-- C2: a decoded `users` frame carrying the name list `names` wholesale
replaces the roster with `rosterOf names` — exactly one `UserProfile` per
name, in the list's order, colour via `get_user_color`; nothing of the
previous roster survives, no frame is sent, and the log is untouched. -/
theorem users_frame_replaces_roster (dE : String → Option WebSocketMessage)
    (dC : String → Option MessageData) (iv : Option String) (raw : String)
    (st : Chat) (names : List String) (d : Option String)
    (h : dE raw = some ⟨MsgTypes.Users, some names, d⟩) :
    update ⟨dE, dC, iv⟩ st (Msg.HandleMsg raw) =
      some { state := { st with users := rosterOf names },
             rerender := true, sent := [], inputAfter := iv } := by
  simp [update, h]

/-- C2 witness: roster `[A, B]` plus a `users` frame `["B", "C"]` yields
exactly the roster `[B, C]`. -/
theorem users_frame_replaces_roster_witness :
    (fun _ : String => some (⟨MsgTypes.Users, some ["B", "C"], none⟩ : WebSocketMessage)) "f" =
      some ⟨MsgTypes.Users, some ["B", "C"], none⟩ ∧
    update ⟨fun _ => some ⟨MsgTypes.Users, some ["B", "C"], none⟩, fun _ => none, none⟩
      { users := [⟨"A", get_user_color "A"⟩, ⟨"B", get_user_color "B"⟩],
        messages := [], dark_mode := false }
      (Msg.HandleMsg "f") =
      some { state := { users := [⟨"B", get_user_color "B"⟩, ⟨"C", get_user_color "C"⟩],
                        messages := [], dark_mode := false },
             rerender := true, sent := [], inputAfter := none } :=
  ⟨rfl, users_frame_replaces_roster _ _ none "f"
    { users := [⟨"A", get_user_color "A"⟩, ⟨"B", get_user_color "B"⟩],
      messages := [], dark_mode := false }
    ["B", "C"] none rfl⟩

/-- C5: `SubmitMessage` trims the input value with Rust `str::trim`; if the
trimmed text is empty it sends nothing, changes no state and leaves the input
as it was; otherwise it sends exactly one `message` envelope whose `data` is
the trimmed text, changes no state, and clears the input.  In particular the
input `" hi "` is sent as `"hi"`. -/
theorem submit_message_spec (dE : String → Option WebSocketMessage)
    (dC : String → Option MessageData) (v : String) (st : Chat) :
    update ⟨dE, dC, some v⟩ st Msg.SubmitMessage =
      (if (rustTrim v).isEmpty then
        some { state := st, rerender := false, sent := [], inputAfter := some v }
      else
        some { state := st, rerender := false,
               sent := [⟨MsgTypes.Message, none, some (rustTrim v)⟩],
               inputAfter := some "" }) ∧
    rustTrim " hi " = "hi" := by
  refine ⟨?_, rfl⟩
  by_cases h : (rustTrim v).isEmpty <;> simp [update, h]

/-- C8: `ClearChat` always succeeds, empties the log, sends nothing, and
leaves every other field of the state (roster, dark mode) unchanged. -/
theorem clear_chat_spec (dE : String → Option WebSocketMessage)
    (dC : String → Option MessageData) (iv : Option String) (st : Chat) :
    update ⟨dE, dC, iv⟩ st Msg.ClearChat =
      some { state := { st with messages := [] },
             rerender := true, sent := [], inputAfter := iv } ∧
    ({ st with messages := [] } : Chat).users = st.users ∧
    ({ st with messages := [] } : Chat).dark_mode = st.dark_mode :=
  ⟨rfl, rfl, rfl⟩

/-- C9: an inbound frame that decodes to a `Register` envelope falls into the
wildcard arm of `Chat::update`: the state (roster, log, dark mode) is
returned unchanged, no frame is sent, and no panic occurs. -/
theorem register_frame_ignored (dE : String → Option WebSocketMessage)
    (dC : String → Option MessageData) (iv : Option String) (raw : String)
    (st : Chat) (da : Option (List String)) (d : Option String)
    (h : dE raw = some ⟨MsgTypes.Register, da, d⟩) :
    update ⟨dE, dC, iv⟩ st (Msg.HandleMsg raw) =
      some { state := st, rerender := false, sent := [], inputAfter := iv } := by
  simp [update, h]

/-- C9 witness: a concrete `Register` frame against a nonempty state. -/
theorem register_frame_ignored_witness :
    (fun _ : String => some (⟨MsgTypes.Register, none, some "alice"⟩ : WebSocketMessage)) "r" =
      some ⟨MsgTypes.Register, none, some "alice"⟩ ∧
    update ⟨fun _ => some ⟨MsgTypes.Register, none, some "alice"⟩, fun _ => none, none⟩
      { users := [⟨"A", get_user_color "A"⟩], messages := [⟨"A", "yo"⟩], dark_mode := true }
      (Msg.HandleMsg "r") =
      some { state := { users := [⟨"A", get_user_color "A"⟩],
                        messages := [⟨"A", "yo"⟩], dark_mode := true },
             rerender := false, sent := [], inputAfter := none } :=
  ⟨rfl, register_frame_ignored _ _ _ _ _ _ _ rfl⟩

/-- C10: a `users` frame whose `dataArray` is absent or `null` (serde decodes
both to `None`) replaces the roster with the empty roster via
`msg.data_array.unwrap_or_default()`: every current participant is dropped,
the frame is not discarded, and no panic occurs. -/
theorem users_frame_no_list_empties_roster (dE : String → Option WebSocketMessage)
    (dC : String → Option MessageData) (iv : Option String) (raw : String)
    (st : Chat) (d : Option String)
    (h : dE raw = some ⟨MsgTypes.Users, none, d⟩) :
    update ⟨dE, dC, iv⟩ st (Msg.HandleMsg raw) =
      some { state := { st with users := [] },
             rerender := true, sent := [], inputAfter := iv } := by
  simp [update, h, rosterOf]

/-- C10 witness: a `users` frame with no list drops a two-entry roster. -/
theorem users_frame_no_list_empties_roster_witness :
    (fun _ : String => some (⟨MsgTypes.Users, none, none⟩ : WebSocketMessage)) "u" =
      some ⟨MsgTypes.Users, none, none⟩ ∧
    update ⟨fun _ => some ⟨MsgTypes.Users, none, none⟩, fun _ => none, none⟩
      { users := [⟨"A", get_user_color "A"⟩, ⟨"B", get_user_color "B"⟩],
        messages := [], dark_mode := false }
      (Msg.HandleMsg "u") =
      some { state := { users := [], messages := [], dark_mode := false },
             rerender := true, sent := [], inputAfter := none } :=
  ⟨rfl, users_frame_no_list_empties_roster _ _ _ _ _ _ rfl⟩

/-- The state after one `Chat::update` step, when the step did not panic. -/
def stateAfter (env : Env) (st : Chat) (m : Msg) : Option Chat :=
  (update env st m).map StepResult.state

/-- C6: applying the same decoded `users` frame twice in succession is
idempotent — the first application succeeds with some state `st1`, and the
second application maps `st1` to `st1` again. -/
theorem users_frame_idempotent (env : Env) (raw : String) (st : Chat)
    (m : WebSocketMessage) (h : env.decodeEnvelope raw = some m)
    (hU : m.message_type = MsgTypes.Users) :
    ∃ st1 : Chat, stateAfter env st (Msg.HandleMsg raw) = some st1 ∧
      stateAfter env st1 (Msg.HandleMsg raw) = some st1 := by
  refine ⟨{ st with users := rosterOf (m.data_array.getD []) }, ?_, ?_⟩ <;>
    obtain ⟨t, da, d⟩ := m <;> cases t <;> simp_all [stateAfter, update]

/-- C6 witness: the `users` frame `["A"]` replayed twice from the initial
state. -/
theorem users_frame_idempotent_witness :
    (fun _ : String => some (⟨MsgTypes.Users, some ["A"], none⟩ : WebSocketMessage)) "u" =
      some ⟨MsgTypes.Users, some ["A"], none⟩ ∧
    (⟨MsgTypes.Users, some ["A"], none⟩ : WebSocketMessage).message_type = MsgTypes.Users ∧
    ∃ st1 : Chat,
      stateAfter ⟨fun _ => some ⟨MsgTypes.Users, some ["A"], none⟩, fun _ => none, none⟩
        initState (Msg.HandleMsg "u") = some st1 ∧
      stateAfter ⟨fun _ => some ⟨MsgTypes.Users, some ["A"], none⟩, fun _ => none, none⟩
        st1 (Msg.HandleMsg "u") = some st1 :=
  ⟨rfl, rfl, users_frame_idempotent _ "u" initState _ rfl rfl⟩

/-- C7 counterexample: the frame `Chat::create` hands to `try_send` for
username `alice` is not the claim's serialization — serde_json also emits the
envelope's `dataArray` field (as `null`), since the struct declares it with
no `skip_serializing_if`. -/
theorem create_serialization_cex :
    create_sent_frame "alice" ≠
      "\x7b\"messageType\":\"register\",\"data\":\"alice\"\x7d" := by
  decide

/-- C7 (amended): `Chat::create` sends exactly one `Register` envelope whose
`data` field is the username, and the state it constructs is the initial
state — empty roster, empty log, Light mode; the serialized frame carries the
`dataArray` field as `null` (for `alice`:
`\x7b"messageType":"register","dataArray":null,"data":"alice"\x7d`). -/
theorem create_spec (u : String) :
    (create u).sent = [registerEnvelope u] ∧
    (registerEnvelope u).message_type = MsgTypes.Register ∧
    (registerEnvelope u).data = some u ∧
    (create u).state = initState ∧
    (create u).state.users = [] ∧
    (create u).state.messages = [] ∧
    (create u).state.dark_mode = false ∧
    create_sent_frame "alice" =
      "\x7b\"messageType\":\"register\",\"dataArray\":null,\"data\":\"alice\"\x7d" :=
  ⟨rfl, rfl, rfl, rfl, rfl, rfl, rfl, by decide⟩

/-- Folding a list of raw inbound frames through `Chat::update`
(`Msg::HandleMsg` on each, in arrival order); `none` as soon as one step
panics. -/
def run_raw_frames (env : Env) : Chat → List String → Option Chat
  | st, [] => some st
  | st, r :: rest =>
    match update env st (Msg.HandleMsg r) with
    | none => none
    | some res => run_raw_frames env res.state rest

/-- The chat message carried by a raw frame, when the frame decodes to a
`message` envelope whose `data` decodes to a `MessageData`. -/
def frameChatMessage (env : Env) (r : String) : Option MessageData :=
  match env.decodeEnvelope r with
  | none => none
  | some m =>
    match m.message_type, m.data with
    | MsgTypes.Message, some d => env.decodeChat d
    | _, _ => none

/-- One valid `message` frame appends exactly its decoded message at the tail
and touches nothing else. -/
theorem update_message_frame_step (env : Env) (r : String) (st : Chat)
    (md : MessageData) (h : frameChatMessage env r = some md) :
    update env st (Msg.HandleMsg r) =
      some { state := { st with messages := st.messages ++ [md] },
             rerender := true, sent := [], inputAfter := env.inputValue } := by
  unfold frameChatMessage at h
  cases hE : env.decodeEnvelope r with
  | none => simp [hE] at h
  | some m =>
    rw [hE] at h
    obtain ⟨t, da, d⟩ := m
    cases t <;> cases d <;> simp_all [update]

/-- Running a list of valid `message` frames appends exactly their decoded
messages, in order. -/
theorem run_valid_message_frames (env : Env) :
    ∀ (raws : List String) (st : Chat),
      (∀ r ∈ raws, ∃ md, frameChatMessage env r = some md) →
      ∃ st2 : Chat, run_raw_frames env st raws = some st2 ∧
        st2.messages = st.messages ++ raws.filterMap (frameChatMessage env) ∧
        st2.messages.length = st.messages.length + raws.length ∧
        st2.users = st.users ∧ st2.dark_mode = st.dark_mode := by
  intro raws
  induction raws with
  | nil => exact fun st _ => ⟨st, rfl, by simp, by simp, rfl, rfl⟩
  | cons r rest ih =>
    intro st h
    obtain ⟨md, hmd⟩ := h r (List.mem_cons_self r rest)
    have hstep := update_message_frame_step env r st md hmd
    obtain ⟨st2, hrun, hmsg, hlen, hu, hd⟩ :=
      ih { st with messages := st.messages ++ [md] }
        (fun x hx => h x (List.mem_cons_of_mem r hx))
    refine ⟨st2, ?_, ?_, ?_, hu, hd⟩
    · simpa [run_raw_frames, hstep] using hrun
    · rw [hmsg]; simp [List.filterMap_cons, hmd]
    · rw [hlen]; simp; omega

/-- C3: processing a sequence of valid `message` frames (no intervening
`ClearChat`) leaves the log equal to the old log plus exactly the decoded
messages, appended at the tail in arrival order, so its length grows by the
number of frames; and no update operation other than `ClearChat` removes or
reorders log entries — every non-`ClearChat` step's log is the old log with
some appended tail. -/
theorem message_frames_append_only (env : Env) (raws : List String) (st : Chat)
    (h : ∀ r ∈ raws, ∃ md, frameChatMessage env r = some md) :
    (∃ st2 : Chat, run_raw_frames env st raws = some st2 ∧
      st2.messages = st.messages ++ raws.filterMap (frameChatMessage env) ∧
      st2.messages.length = st.messages.length + raws.length ∧
      st2.users = st.users ∧ st2.dark_mode = st.dark_mode) ∧
    (∀ (m2 : Msg) (res : StepResult), update env st m2 = some res →
      m2 = Msg.ClearChat ∨ ∃ tl, res.state.messages = st.messages ++ tl) := by
  refine ⟨run_valid_message_frames env raws st h, ?_⟩
  intro m2 res hres
  cases m2 with
  | ClearChat => exact Or.inl rfl
  | ToggleDarkMode =>
    refine Or.inr ⟨[], ?_⟩
    simp [update] at hres
    simp [← hres]
  | SubmitMessage =>
    refine Or.inr ⟨[], ?_⟩
    simp only [update] at hres
    cases hiv : env.inputValue with
    | none => rw [hiv] at hres; simp at hres; simp [← hres]
    | some v =>
      rw [hiv] at hres
      by_cases he : (rustTrim v).isEmpty <;> simp [he] at hres <;> simp [← hres]
  | HandleMsg s =>
    refine Or.inr ?_
    simp only [update] at hres
    cases hE : env.decodeEnvelope s with
    | none => rw [hE] at hres; cases hres
    | some m =>
      rw [hE] at hres
      obtain ⟨t, da, d⟩ := m
      cases t with
      | Users =>
        refine ⟨[], ?_⟩
        simp at hres
        simp [← hres]
      | Register =>
        refine ⟨[], ?_⟩
        simp at hres
        simp [← hres]
      | Message =>
        cases d with
        | none => simp at hres
        | some dd =>
          cases hC : env.decodeChat dd with
          | none => simp [hC] at hres
          | some md =>
            refine ⟨[md], ?_⟩
            simp [hC] at hres
            simp [← hres]

/-- A concrete environment in which every frame decodes to a valid `message`
envelope carrying `bob: hi`. -/
def envC3 : Env :=
  ⟨fun _ => some ⟨MsgTypes.Message, none, some "d"⟩, fun _ => some ⟨"bob", "hi"⟩, none⟩

/-- C3 witness: two valid `message` frames from the initial state give a
two-entry log in arrival order. -/
theorem message_frames_append_only_witness :
    (∀ r ∈ ["a", "b"], ∃ md, frameChatMessage envC3 r = some md) ∧
    ((∃ st2 : Chat, run_raw_frames envC3 initState ["a", "b"] = some st2 ∧
      st2.messages = initState.messages ++ (["a", "b"].filterMap (frameChatMessage envC3)) ∧
      st2.messages.length = initState.messages.length + (["a", "b"] : List String).length ∧
      st2.users = initState.users ∧ st2.dark_mode = initState.dark_mode) ∧
    (∀ (m2 : Msg) (res : StepResult), update envC3 initState m2 = some res →
      m2 = Msg.ClearChat ∨ ∃ tl, res.state.messages = initState.messages ++ tl)) :=
  ⟨fun _ _ => ⟨⟨"bob", "hi"⟩, rfl⟩,
   message_frames_append_only envC3 ["a", "b"] initState (fun _ _ => ⟨⟨"bob", "hi"⟩, rfl⟩)⟩
